import Mathlib

/-!
Verification of the portlint2 FreeBSD ports-tree linter against its
natural-language specification.  The program is shallowly embedded: Python
strings become `List Char`, the global counter dictionary becomes a structure
of `Nat` fields, the notification dictionary becomes an insertion-ordered
association list, the filesystem and the network become explicit oracles, and
Python exceptions become `Except`.
-/

/-- Strings of the embedded program are lists of characters. -/
abbrev Str := List Char

/-- Whitespace characters stripped by Python's `str.strip()`. -/
def pyIsSpace (c : Char) : Bool :=
  c = ' ' || c = '\t' || c = '\n' || c = '\r' || c = '\x0b' || c = '\x0c'

/-- Leading-whitespace removal, the first half of Python `str.strip()`. -/
def trimLeadingWs (s : Str) : Str := s.dropWhile pyIsSpace

/-- Trailing-whitespace removal, the second half of Python `str.strip()`. -/
def trimTrailingWs (s : Str) : Str := (s.reverse.dropWhile pyIsSpace).reverse

/-- Python `str.strip()`: remove leading and trailing whitespace. -/
def pyStrip (s : Str) : Str := trimTrailingWs (trimLeadingWs s)

/-- Python `str.lower()` restricted to the ASCII strings handled here. -/
def pyLower (s : Str) : Str := s.map Char.toLower

/-- Python `line.split('|')`: split on every pipe character, keeping empty
fields, with `[[]]` for the empty string, exactly as `str.split` does. -/
def splitPipe : Str → List Str
  | [] => [[]]
  | '|' :: rest => [] :: splitPipe rest
  | c :: rest =>
    match splitPipe rest with
    | [] => [[c]]
    | f :: fs => (c :: f) :: fs

/-- Word accumulator for `pyWords`, mirroring Python `str.split()` with no
argument: runs of whitespace separate words, borders are ignored. -/
def pyWordsAux (cur : Str) : Str → List Str
  | [] => if cur = [] then [] else [cur.reverse]
  | c :: rest =>
    if pyIsSpace c then
      if cur = [] then pyWordsAux [] rest else cur.reverse :: pyWordsAux [] rest
    else pyWordsAux (c :: cur) rest

/-- Python `str.split()` with no argument (split on whitespace runs). -/
def pyWords (s : Str) : List Str := pyWordsAux [] s

/-- Python `pat in s` substring membership test. -/
def isSubstring (pat : Str) : Str → Bool
  | [] => decide (pat = [])
  | c :: rest => pat.isPrefixOf (c :: rest) || isSubstring pat rest

/-- Association-list lookup on string keys, mirroring Python dict access. -/
def alookup {β : Type} (k : Str) : List (Str × β) → Option β
  | [] => none
  | (k', v) :: rest => if k' = k then some v else alookup k rest

/-- Severity levels of the Python `logging` calls. -/
inductive Level where
  | error
  | warning
  | info
  | debug
deriving DecidableEq, Repr

/-- One package record.  The Python program stores one dict per port mixing
the 13 INDEX fields with extracted Makefile variables and the Makefile
timestamp; here the INDEX fields are named, the Makefile variables live in
`vars`, and the timestamp (seconds) in `last_modification`. -/
structure Port where
  port_path : Str
  install_pfx : Str
  comment : Str
  description_file : Str
  maintainer : Str
  categories : Str
  extract_depends : Str
  patch_depends : Str
  www_site : Str
  fetch_depends : Str
  build_depentds : Str
  run_depends : Str
  vars : List (Str × Str) := []
  last_modification : Option Int := none
deriving DecidableEq, Repr

/-- The global `counters` dictionary: one `Nat` per issue kind. -/
structure Counters where
  freebsd_ports : Nat := 0
  selected_ports : Nat := 0
  nonexistent_makefile : Nat := 0
  nonexistent_port_path : Nat := 0
  unusual_install_pfx : Nat := 0
  too_long_comments : Nat := 0
  uncapitalized_comments : Nat := 0
  dot_ended_comments : Nat := 0
  diverging_comments : Nat := 0
  nonexistent_description_file : Nat := 0
  url_ending_description_file : Nat := 0
  description_file_same_as_comment : Nat := 0
  too_short_description_file : Nat := 0
  nonexistent_pkg_plist : Nat := 0
  plist_files_abuse : Nat := 0
  diverging_maintainers : Nat := 0
  unofficial_categories : Nat := 0
  diverging_categories : Nat := 0
  empty_www_site : Nat := 0
  unresolvable_www_site : Nat := 0
  unaccessible_www_site : Nat := 0
  diverging_www_site : Nat := 0
  marked_broken : Nat := 0
  marked_broken_too_long : Nat := 0
  marked_forbidden : Nat := 0
  marked_forbidden_too_long : Nat := 0
  marked_ignore : Nat := 0
  marked_deprecated : Nat := 0
  marked_deprecated_too_long : Nat := 0
  unchanged_long_time : Nat := 0
deriving DecidableEq, Repr

/-- The notification ledger: maintainer → (issue kind → affected ports),
as insertion-ordered association lists like Python dicts. -/
abbrev Notifs := List (Str × List (Str × List Str))

/-- Shared mutable context of the program: counters, the notification
ledger, and the log of diagnostic events (level and message kind). -/
structure Ctx where
  counters : Counters := {}
  notifications : Notifs := []
  logs : List (Level × Str) := []
deriving DecidableEq, Repr

/-- Append one diagnostic event to the log. -/
def addLog (ctx : Ctx) (lv : Level) (msg : Str) : Ctx :=
  { ctx with logs := ctx.logs ++ [(lv, msg)] }

/-- Append a port id to a list only if absent, as `notify_maintainer` does. -/
def addPort (l : List Str) (p : Str) : List Str :=
  if p ∈ l then l else l ++ [p]

/-- Update the issue-kind map of one maintainer, appending the port to the
matching issue entry or creating the entry, as `notify_maintainer` does. -/
def updErr (e p : Str) : List (Str × List Str) → List (Str × List Str)
  | [] => [(e, [p])]
  | (e', ps) :: rest =>
    if e' = e then (e', addPort ps p) :: rest else (e', ps) :: updErr e p rest

/-- Embedding of `notify_maintainer(maintainer, error, port)`: record the
port under the maintainer's entry for that issue kind, without duplicates. -/
def notify_maintainer (m e p : Str) : Notifs → Notifs
  | [] => [(m, [(e, [p])])]
  | (m', es) :: rest =>
    if m' = m then (m', updErr e p es) :: rest
    else (m', es) :: notify_maintainer m e p rest

/-- Notify inside a context. -/
def addNotif (ctx : Ctx) (m e p : Str) : Ctx :=
  { ctx with notifications := notify_maintainer m e p ctx.notifications }

/-- The list of ports recorded for a maintainer under one issue kind. -/
def portsUnder (m e : Str) (ns : Notifs) : List Str :=
  (alookup e ((alookup m ns).getD [])).getD []

/-- Errors reported (and recovered from) while loading the ports INDEX. -/
inductive LoadErr where
  | badFields (line : Str)
  | duplicate (line : Str)
deriving DecidableEq, Repr

/-- State of the INDEX loading loop: accepted records plus reported
rejections. -/
structure LoadSt where
  ports : List (Str × Port) := []
  errors : List LoadErr := []
deriving DecidableEq, Repr

/-- Build a `Port` from the 13 split fields of an INDEX line, exactly as the
dict literal in `load_freebsd_ports_dict` does (field 5 lower-cased). -/
def portOfFields (fs : List Str) : Port :=
  { port_path := fs.getD 1 []
    install_pfx := fs.getD 2 []
    comment := fs.getD 3 []
    description_file := fs.getD 4 []
    maintainer := pyLower (fs.getD 5 [])
    categories := fs.getD 6 []
    extract_depends := fs.getD 7 []
    patch_depends := fs.getD 8 []
    www_site := fs.getD 9 []
    fetch_depends := fs.getD 10 []
    build_depentds := fs.getD 11 []
    run_depends := fs.getD 12 [] }

/-- One iteration of the loading loop of `load_freebsd_ports_dict`: reject a
line whose field count is not 13, reject a duplicate identifier, otherwise
record the port under the identifier. -/
def loadStep (st : LoadSt) (line : Str) : LoadSt :=
  let fields := splitPipe line
  if fields.length ≠ 13 then
    { st with errors := st.errors ++ [LoadErr.badFields line] }
  else if (alookup (fields.getD 0 []) st.ports).isSome then
    { st with errors := st.errors ++ [LoadErr.duplicate line] }
  else
    { st with ports := st.ports ++ [(fields.getD 0 [], portOfFields fields)] }

/-- Embedding of the parsing loop of `load_freebsd_ports_dict` over the lines
of the INDEX file (the platform and file-existence preconditions are fatal
environment checks performed before this loop). -/
def load_freebsd_ports_dict (lines : List Str) : LoadSt :=
  lines.foldl loadStep {}

/-- Masking step of the escaped-hash kludge in `update_with_makefiles`:
`re.sub(r"\\#", "²", line)` replaces every `\#` pair with `²`. -/
def maskEsc : Str → Str
  | '\\' :: '#' :: rest => '²' :: maskEsc rest
  | c :: rest => c :: maskEsc rest
  | [] => []

/-- Unmasking step: `re.sub(r"²", "\\#", line)` turns every `²` back into
the two characters `\#`. -/
def unmaskEsc : Str → Str
  | '²' :: rest => '\\' :: '#' :: unmaskEsc rest
  | c :: rest => c :: unmaskEsc rest
  | [] => []

/-- Trailing space/tab removal used by the comment regex `[ \t]*#.*`. -/
def stripTrailingBlanks (s : Str) : Str :=
  (s.reverse.dropWhile (fun c => c = ' ' || c = '\t')).reverse

/-- Embedding of `re.sub(r"[ \t]*#.*", "", s)`: when a `#` is present, drop
everything from the first `#` on, together with the run of spaces and tabs
immediately before it; otherwise leave the string unchanged. -/
def removeComment (s : Str) : Str :=
  if '#' ∈ s then stripTrailingBlanks (s.takeWhile (fun c => c ≠ '#')) else s

/-- Comment stripping applied to one physical Makefile line when no
continuation is pending (`previous_lines` empty), exactly following the
three-way branch in `update_with_makefiles`. -/
def stripCommentLine (l : Str) : Str :=
  if '#' ∉ l then pyStrip l
  else if isSubstring ['\\', '#'] l then
    unmaskEsc (removeComment (pyStrip (maskEsc l)))
  else removeComment (pyStrip l)

/-- Characters admitted in a Makefile variable name by `^([A-Z_]+)=`. -/
def isVarChar (c : Char) : Bool := ('A' ≤ c && c ≤ 'Z') || c = '_'

/-- Embedding of `re.match(r"^([A-Z_]+)=[ \t]*(.*)", line)`: a nonempty run
of uppercase letters and underscores, an equals sign, optional blanks, and
the rest of the line as the value. -/
def parseAssign (line : Str) : Option (Str × Str) :=
  let name := line.takeWhile isVarChar
  if name = [] then none
  else
    match line.drop name.length with
    | '=' :: rest => some (name, rest.dropWhile (fun c => c = ' ' || c = '\t'))
    | _ => none

/-- Store a Makefile variable, overwriting an earlier assignment in place as
Python dict assignment does. -/
def setVar (k v : Str) : List (Str × Str) → List (Str × Str)
  | [] => [(k, v)]
  | (k', v') :: rest =>
    if k' = k then (k', v) :: rest else (k', v') :: setVar k v rest

/-- The line loop of `update_with_makefiles`: strip comments, join continued
lines through `prev`, skip blank results, and record variable assignments. -/
def makefileLinesAux (prev : Str) (vars : List (Str × Str)) :
    List Str → List (Str × Str)
  | [] => vars
  | l :: rest =>
    let line :=
      if '#' ∉ l then prev ++ pyStrip l
      else if isSubstring ['\\', '#'] l then
        unmaskEsc (prev ++ removeComment (pyStrip (maskEsc l)))
      else prev ++ removeComment (pyStrip l)
    if line = [] then makefileLinesAux [] vars rest
    else if line.getLast? = some '\\' then
      makefileLinesAux (line.dropLast) vars rest
    else
      match parseAssign line with
      | some (k, v) => makefileLinesAux [] (setVar k v vars) rest
      | none => makefileLinesAux [] vars rest

/-- Extract the Makefile variable assignments from the physical lines of a
Makefile, as the body of `update_with_makefiles` does for one port. -/
def makefileVars (lines : List Str) : List (Str × Str) :=
  makefileLinesAux [] [] lines

/-- Filesystem oracle: directory test, file test, file content as lines,
and modification time in seconds. -/
structure FS where
  isDir : Str → Bool
  isFile : Str → Bool
  readLines : Str → List Str
  mtime : Str → Int

/-- Per-port body of `update_with_makefiles`: skip ports whose directory is
missing; report a missing Makefile (counter and notification); otherwise
record the modification time and the extracted variables. -/
def uwm_port (fs : FS) (name : Str) (port : Port) (ctx : Ctx) : Port × Ctx :=
  if !fs.isDir port.port_path then (port, ctx)
  else
    let makefile := port.port_path ++ ('/' :: "Makefile".data)
    if !fs.isFile makefile then
      (port,
        addNotif
          (addLog { ctx with counters := { ctx.counters with
              nonexistent_makefile := ctx.counters.nonexistent_makefile + 1 } }
            Level.error "Nonexistent Makefile".data)
          port.maintainer "Nonexistent Makefile".data name)
    else
      ({ port with
          last_modification := some (fs.mtime makefile)
          vars := makefileVars (fs.readLines makefile) }, ctx)

/-- Embedding of `update_with_makefiles`: enrich every port in order,
threading the context, and append the final info log line. -/
def update_with_makefiles (fs : FS) (ctx : Ctx) :
    List (Str × Port) → Ctx × List (Str × Port)
  | [] => (addLog ctx Level.info "Found ports with nonexistent Makefile".data, [])
  | (n, p) :: rest =>
    let (p', ctx') := uwm_port fs n p ctx
    let (ctxF, rest') := update_with_makefiles fs ctx' rest
    (ctxF, (n, p') :: rest')

/-- Embedding of `check_port_path`: report every port whose directory does
not exist. -/
def check_port_path (fs : FS) (ctx : Ctx) (ports : List (Str × Port)) : Ctx :=
  addLog
    (ports.foldl
      (fun c (np : Str × Port) =>
        if !fs.isDir np.2.port_path then
          addNotif
            (addLog { c with counters := { c.counters with
                nonexistent_port_path := c.counters.nonexistent_port_path + 1 } }
              Level.error "Nonexistent port-path".data)
            np.2.maintainer "Nonexistent port-path".data np.1
        else c)
      ctx)
    Level.info "Found ports with nonexistent port-path".data

/-- The allow-list expression of `check_installation_prefix`, with Python's
operator precedence kept exactly: in the fifth and sixth branches the
conjunction binds tighter than the disjunction, so the name tests
`startswith("queue-fix")` and `startswith("zoneinfo-")` stand alone. -/
def usual_install_pfx (name pfx : Str) : Bool :=
  if pfx = "/usr/local".data then true
  else if pfx = "/compat/linux".data && "linux".data.isPrefixOf name then true
  else if pfx = "/usr/local/FreeBSD_ARM64".data
      && isSubstring "-aarch64-".data name then true
  else if "/usr/local/android".data.isPrefixOf pfx
      && isSubstring "droid".data name then true
  else if (pfx = "/var/qmail".data && isSubstring "qmail".data name)
      || "queue-fix".data.isPrefixOf name then true
  else if (pfx = "/usr".data && "global-tz-".data.isPrefixOf name)
      || "zoneinfo-".data.isPrefixOf name then true
  else false

/-- Embedding of `check_installation_prefix`: warn, count and notify for
every port whose prefix and name fall outside the allow-list. -/
def check_installation_pfx (ctx : Ctx) (ports : List (Str × Port)) : Ctx :=
  addLog
    (ports.foldl
      (fun c (np : Str × Port) =>
        if usual_install_pfx np.1 np.2.install_pfx then c
        else
          addNotif
            (addLog { c with counters := { c.counters with
                unusual_install_pfx := c.counters.unusual_install_pfx + 1 } }
              Level.warning "Unusual installation-prefix".data)
            np.2.maintainer "Unusual installation-prefix".data np.1)
      ctx)
    Level.info "Found ports with unusual installation-prefix".data

/-- Python `s.replace("\\", "")` used by the comment cross-check. -/
def dropBackslashes (s : Str) : Str := s.filter (fun c => c ≠ '\\')

/-- Per-port body of `check_comment`.  The length test runs first; then
`port["comment"][0]` is read, which in Python raises `IndexError` on an
empty comment — embedded as the `Except.error` branch. -/
def check_comment_port (ctx : Ctx) (name : Str) (port : Port) :
    Except Unit Ctx :=
  let ctx1 :=
    if port.comment.length > 70 then
      addNotif
        (addLog { ctx with counters := { ctx.counters with
            too_long_comments := ctx.counters.too_long_comments + 1 } }
          Level.warning "Too long comments".data)
        port.maintainer "Too long comments".data name
    else ctx
  match port.comment with
  | [] => Except.error ()
  | c0 :: _ =>
    let ctx2 :=
      if 'a' ≤ c0 && c0 ≤ 'z' then
        addNotif
          (addLog { ctx1 with counters := { ctx1.counters with
              uncapitalized_comments := ctx1.counters.uncapitalized_comments + 1 } }
            Level.error "Uncapitalized comments".data)
          port.maintainer "Uncapitalized comments".data name
      else ctx1
    let ctx3 :=
      if port.comment.getLast? = some '.' then
        addNotif
          (addLog { ctx2 with counters := { ctx2.counters with
              dot_ended_comments := ctx2.counters.dot_ended_comments + 1 } }
            Level.error "Dot-ended comments".data)
          port.maintainer "Dot-ended comments".data name
      else ctx2
    match alookup "COMMENT".data port.vars with
    | none => Except.ok ctx3
    | some v =>
      if '$' ∈ v then Except.ok ctx3
      else if dropBackslashes port.comment ≠ dropBackslashes v then
        Except.ok
          (addNotif
            (addLog { ctx3 with counters := { ctx3.counters with
                diverging_comments := ctx3.counters.diverging_comments + 1 } }
              Level.error "Diverging comments".data)
            port.maintainer "Diverging comments".data name)
      else Except.ok ctx3

/-- Loop of `check_comment` over the ports; an `IndexError` raised for one
port propagates and abandons the remaining ports, as in Python where the
caller installs no handler. -/
def check_comment_list (ctx : Ctx) : List (Str × Port) → Except Unit Ctx
  | [] => Except.ok ctx
  | (n, p) :: rest =>
    match check_comment_port ctx n p with
    | Except.error e => Except.error e
    | Except.ok ctx' => check_comment_list ctx' rest

/-- Embedding of `check_comment`, including the final info log lines that
run only when no exception escapes the loop. -/
def check_comment (ctx : Ctx) (ports : List (Str × Port)) : Except Unit Ctx :=
  match check_comment_list ctx ports with
  | Except.error e => Except.error e
  | Except.ok c =>
    Except.ok
      (addLog
        (addLog
          (addLog (addLog c Level.info "Found ports with too long comments".data)
            Level.info "Found ports with uncapitalized comments".data)
          Level.info "Found ports with dot-ended comments".data)
        Level.info "Found ports with diverging comments".data)

/-- Per-port body of `check_description_file`: decide nonexistence along the
three-way branch of the source, then inspect the content (a trailing URL
line, duplicate-of-comment, too-short). -/
def check_description_file_port (fs : FS) (ctx : Ctx) (name : Str)
    (port : Port) : Ctx :=
  let nonexistent :=
    if !(port.port_path.isPrefixOf port.description_file) then
      !fs.isFile port.description_file
    else if !fs.isDir port.port_path then false
    else !fs.isFile port.description_file
  if nonexistent then
    addNotif
      (addLog { ctx with counters := { ctx.counters with
          nonexistent_description_file :=
            ctx.counters.nonexistent_description_file + 1 } }
        Level.error "Nonexistent description-file".data)
      port.maintainer "Nonexistent description-file".data name
  else
    let lines := fs.readLines port.description_file
    match lines.getLast? with
    | none => ctx
    | some lastLine =>
      let urlEnding :=
        "https://".data.isPrefixOf (pyStrip lastLine)
          || "http://".data.isPrefixOf (pyStrip lastLine)
      let ctx1 :=
        if urlEnding then
          addNotif
            (addLog { ctx with counters := { ctx.counters with
                url_ending_description_file :=
                  ctx.counters.url_ending_description_file + 1 } }
              Level.error "URL ending description-file".data)
            port.maintainer "URL ending description-file".data name
        else ctx
      let lines1 := if urlEnding then lines.dropLast else lines
      let text := pyStrip (List.intercalate [' '] lines1)
      if port.comment = text then
        addNotif
          (addLog { ctx1 with counters := { ctx1.counters with
              description_file_same_as_comment :=
                ctx1.counters.description_file_same_as_comment + 1 } }
            Level.error "description-file same as comment".data)
          port.maintainer "description-file same as comment".data name
      else if text.length ≤ port.comment.length then
        addNotif
          (addLog { ctx1 with counters := { ctx1.counters with
              too_short_description_file :=
                ctx1.counters.too_short_description_file + 1 } }
            Level.error "Too short description-file".data)
          port.maintainer "Too short description-file".data name
      else ctx1

/-- Embedding of `check_description_file` over the port list. -/
def check_description_file (fs : FS) (ctx : Ctx)
    (ports : List (Str × Port)) : Ctx :=
  addLog
    (addLog
      (addLog
        (addLog
          (ports.foldl
            (fun c (np : Str × Port) =>
              check_description_file_port fs c np.1 np.2) ctx)
          Level.info "Found ports with nonexistent description-file".data)
        Level.info "Found ports with URL ending description-file".data)
      Level.info "Found ports with description-file identical to comment".data)
    Level.info "Found ports with too short description-file".data

/-- Embedding of `check_plist`: for ports with an existing directory but no
`pkg-plist` file, either log the absence of any package-list indicator at
info severity without notifying, or flag `PLIST_FILES` abuse at or above the
threshold. -/
def check_plist (fs : FS) (plist_abuse : Nat) (ctx : Ctx)
    (ports : List (Str × Port)) : Ctx :=
  addLog
    (addLog
      (ports.foldl
        (fun c (np : Str × Port) =>
          let port := np.2
          if fs.isDir port.port_path then
            if !fs.isFile (port.port_path ++ ('/' :: "pkg-plist".data)) then
              match alookup "PLIST_FILES".data port.vars with
              | none =>
                if (alookup "PLIST".data port.vars).isNone
                    && (alookup "PLIST_SUB".data port.vars).isNone then
                  addLog { c with counters := { c.counters with
                      nonexistent_pkg_plist :=
                        c.counters.nonexistent_pkg_plist + 1 } }
                    Level.info "Nonexistent pkg-plist".data
                else c
              | some v =>
                if (pyWords v).length ≥ plist_abuse then
                  addNotif
                    (addLog { c with counters := { c.counters with
                        plist_files_abuse := c.counters.plist_files_abuse + 1 } }
                      Level.warning "PLIST_FILES abuse".data)
                    port.maintainer "PLIST_FILES abuse".data np.1
                else c
            else c
          else c)
        ctx)
      Level.info "Found ports with nonexistent pkg-plist".data)
    Level.info "Found ports with PLIST_FILES abuse".data

/-- Embedding of `check_maintainer`: on a resolvable `MAINTAINER` variable
differing case-insensitively from the index maintainer, report and notify
both parties. -/
def check_maintainer (ctx : Ctx) (ports : List (Str × Port)) : Ctx :=
  addLog
    (ports.foldl
      (fun c (np : Str × Port) =>
        let port := np.2
        match alookup "MAINTAINER".data port.vars with
        | none => c
        | some v =>
          if '$' ∈ v then c
          else if port.maintainer ≠ pyLower v then
            addNotif
              (addNotif
                (addLog { c with counters := { c.counters with
                    diverging_maintainers :=
                      c.counters.diverging_maintainers + 1 } }
                  Level.error "Diverging maintainers".data)
                port.maintainer "Diverging maintainers".data np.1)
              v "Diverging maintainers".data np.1
          else c)
      ctx)
    Level.info "Found ports with diverging maintainers".data

/-- The static vocabulary `PORT_CATEGORIES` of official category names. -/
def PORT_CATEGORIES : List Str :=
  ["accessibility", "afterstep", "arabic", "archivers", "astro", "audio",
   "benchmarks", "biology", "cad", "chinese", "comms", "converters",
   "databases", "deskutils", "devel", "dns", "docs", "editors", "education",
   "elisp", "emulators", "enlightenment", "finance", "french", "ftp",
   "games", "geography", "german", "gnome", "gnustep", "graphics",
   "hamradio", "haskell", "hebrew", "hungarian", "irc", "japanese", "java",
   "kde", "kde-applications", "kde-frameworks", "kde-plasma", "kld",
   "korean", "lang", "linux", "lisp", "mail", "mate", "math", "mbone",
   "misc", "multimedia", "net", "net-im", "net-mgmt", "net-p2p", "net-vpn",
   "news", "parallel", "pear", "perl5", "plan9", "polish", "ports-mgmt",
   "portuguese", "print", "python", "ruby", "rubygems", "russian", "scheme",
   "science", "security", "shells", "spanish", "sysutils", "tcl",
   "textproc", "tk", "ukrainian", "vietnamese", "wayland", "windowmaker",
   "www", "x11", "x11-clocks", "x11-drivers", "x11-fm", "x11-fonts",
   "x11-servers", "x11-themes", "x11-toolkits", "x11-wm", "xfce",
   "zope"].map String.data

/-- Flag one unofficial category token: warn, count and notify. -/
def flag_unofficial_category (ctx : Ctx) (maintainer name : Str) : Ctx :=
  addNotif
    (addLog { ctx with counters := { ctx.counters with
        unofficial_categories := ctx.counters.unofficial_categories + 1 } }
      Level.warning "Unofficial category".data)
    maintainer "Unofficial category".data name

/-- Embedding of `check_categories`: validate every index category token,
then on a resolvable `CATEGORIES` variable compare it verbatim to the index
value and validate its tokens too. -/
def check_categories (ctx : Ctx) (ports : List (Str × Port)) : Ctx :=
  addLog
    (addLog
      (ports.foldl
        (fun c (np : Str × Port) =>
          let port := np.2
          let c1 :=
            (pyWords port.categories).foldl
              (fun c2 cat =>
                if cat ∉ PORT_CATEGORIES then
                  flag_unofficial_category c2 port.maintainer np.1
                else c2)
              c
          match alookup "CATEGORIES".data port.vars with
          | none => c1
          | some v =>
            if '$' ∈ v then c1
            else
              let c2 :=
                if port.categories ≠ v then
                  addNotif
                    (addLog { c1 with counters := { c1.counters with
                        diverging_categories :=
                          c1.counters.diverging_categories + 1 } }
                      Level.error "Diverging categories".data)
                    port.maintainer "Diverging categories".data np.1
                else c1
              (pyWords v).foldl
                (fun c3 cat =>
                  if cat ∉ PORT_CATEGORIES then
                    flag_unofficial_category c3 port.maintainer np.1
                  else c3)
                c2)
        ctx)
      Level.info "Found ports with unofficial categories".data)
    Level.info "Found ports with diverging categories".data

/-- Remove every occurrence of a literal pattern, scanning left to right as
`re.sub(pat, "", s)` does for a plain-text pattern; fuel-driven so that the
recursion is structural. -/
def removeAllLitAux (pat : Str) : Nat → Str → Str
  | _, [] => []
  | 0, s => s
  | fuel + 1, c :: rest =>
    if pat.isPrefixOf (c :: rest) then
      removeAllLitAux pat fuel (List.drop (pat.length - 1) rest)
    else c :: removeAllLitAux pat fuel rest

/-- Remove every occurrence of a nonempty literal pattern. -/
def removeAllLit (pat s : Str) : Str := removeAllLitAux pat s.length s

/-- Embedding of `re.sub(r".*: *", "", s)`: with a greedy `.*`, the match
extends to the last colon and the spaces after it; without a colon the
string is unchanged. -/
def afterLastColonSpaces (s : Str) : Str :=
  if ':' ∈ s then
    ((s.reverse.takeWhile (fun c => c ≠ ':')).reverse).dropWhile
      (fun c => c = ' ')
  else s

/-- Match the tail of the scheme pattern `[s]*://` at the head of the list,
returning the remainder after the match. -/
def eatSchemeTail : Str → Option Str
  | ':' :: '/' :: '/' :: r => some r
  | 's' :: r => eatSchemeTail r
  | _ => none

/-- Match the regex `http[s]*://` at the head of the list. -/
def matchScheme : Str → Option Str
  | 'h' :: 't' :: 't' :: 'p' :: rest => eatSchemeTail rest
  | _ => none

/-- Remove every match of `http[s]*://`, as `re.sub` does; fuel-driven. -/
def stripSchemesAux : Nat → Str → Str
  | _, [] => []
  | 0, s => s
  | fuel + 1, c :: rest =>
    match matchScheme (c :: rest) with
    | some r => stripSchemesAux fuel r
    | none => c :: stripSchemesAux fuel rest

/-- Hostname extraction of `check_www_site`: drop URL schemes, drop the
path from the first slash, and drop every colon-and-digits port marker. -/
def stripSchemes (s : Str) : Str := stripSchemesAux s.length s

/-- Scanner for `re.sub(r":[0-9]*", "", s)`: after a colon, digits are
being consumed as part of the current match. -/
def stripPortMarksAux (skipping : Bool) : Str → Str
  | [] => []
  | c :: rest =>
    if c = ':' then stripPortMarksAux true rest
    else if skipping && c.isDigit then stripPortMarksAux true rest
    else c :: stripPortMarksAux false rest

/-- Embedding of `re.sub(r":[0-9]*", "", s)`: every colon is removed
together with the digits following it. -/
def stripPortMarks (s : Str) : Str := stripPortMarksAux false s

/-- The three `re.sub` rewrites extracting a hostname from a www-site URL. -/
def extract_hostname (u : Str) : Str :=
  stripPortMarks ((stripSchemes u).takeWhile (fun c => c ≠ '/'))

/-- Outcome of classifying one fetch-error string in `_handle_url_errors`:
whether the site counts as unaccessible (notified and counted by the
caller), the reason text, the log severity, and whether the unresolvable
counter is incremented inside the classifier. -/
structure UrlErrClass where
  isUnaccessible : Bool
  reason : Str
  level : Level
  unresolvIncrement : Bool
deriving DecidableEq, Repr

/-- Classification logic of `_handle_url_errors`, applied identically to
live and replayed failures: specific HTTP codes are unaccessible errors,
301/308 are informational, other HTTP codes are warnings, the literal
name-does-not-resolve message counts as unresolvable, and anything else is
a debug event. -/
def classify_url_error (err : Str) : UrlErrClass :=
  let errLower := pyLower err
  if "http error".data.isPrefixOf errLower then
    let ec0 := removeAllLit "http error ".data errLower
    let msg := afterLastColonSpaces ec0
    let code := ec0.takeWhile (fun c => c ≠ ':')
    if code = "404".data then
      ⟨true, "HTTP Error 404 (Not found) on www-site".data, Level.error, false⟩
    else if code = "410".data then
      ⟨true, "HTTP Error 410 (Gone) on www-site".data, Level.error, false⟩
    else if code = "401".data then
      ⟨true, "HTTP Error 401 (Unauthorized) on www-site".data, Level.error,
        false⟩
    else if code = "451".data then
      ⟨true, "HTTP Error 451 (Unavailable for legal reasons) on www-site".data,
        Level.error, false⟩
    else if code = "301".data then
      ⟨false, "HTTP Error 301 (Moved permanently) on www-site".data,
        Level.info, false⟩
    else if code = "308".data then
      ⟨false, "HTTP Error 308 (Permanent redirect) on www-site".data,
        Level.info, false⟩
    else
      ⟨false,
        "HTTP Error ".data ++ code ++ " (".data ++ msg
          ++ ") on www-site".data,
        Level.warning, false⟩
  else if err = "<urlopen error [Errno 8] Name does not resolve>".data then
    ⟨false, "Unresolvable www-site".data, Level.error, true⟩
  else
    ⟨false, "Unaccessible www-site".data, Level.debug, false⟩

/-- Embedding of `_handle_url_errors`: log the classified event, increment
the unresolvable counter for a name-resolution failure, notify the
maintainer when the site is unaccessible, and return that verdict. -/
def handle_url_errors (ctx : Ctx) (portName _wwwSite err maintainer : Str) :
    Bool × Ctx :=
  let c := classify_url_error err
  let ctx1 := addLog ctx c.level c.reason
  let ctx2 :=
    if c.unresolvIncrement then
      { ctx1 with counters := { ctx1.counters with
          unresolvable_www_site := ctx1.counters.unresolvable_www_site + 1 } }
    else ctx1
  let ctx3 :=
    if c.isUnaccessible then addNotif ctx2 maintainer c.reason portName
    else ctx2
  (c.isUnaccessible, ctx3)

/-- Replay or live handling of one failed fetch as done at both call sites
of `_handle_url_errors` in `check_www_site`: classify, and when the verdict
is unaccessible also increment the unaccessible counter. -/
def replay_ctx (ctx : Ctx) (name u err m : Str) : Ctx :=
  let r := handle_url_errors ctx name u err m
  if r.1 then
    { r.2 with counters := { r.2.counters with
        unaccessible_www_site := r.2.counters.unaccessible_www_site + 1 } }
  else r.2

/-- State of the `check_www_site` loop: the shared context, the negative
hostname cache, the URL success and failure caches, and the trace of URLs
for which a live fetch was actually issued. -/
structure WwwSt where
  ctx : Ctx
  unresolvable : List Str
  urlOk : List Str
  urlKo : List (Str × Str)
  trace : List Str
deriving Repr

/-- The `WWW` Makefile-variable cross-check at the end of each iteration of
`check_www_site`; it touches only the context. -/
def www_var_ctx (ctx : Ctx) (name : Str) (port : Port) : Ctx :=
  match alookup "WWW".data port.vars with
  | none => ctx
  | some w =>
    if '$' ∈ w then ctx
    else if port.www_site ∈ pyWords w then ctx
    else
      addNotif
        (addLog { ctx with counters := { ctx.counters with
            diverging_www_site := ctx.counters.diverging_www_site + 1 } }
          Level.error "Diverging www-site".data)
        port.maintainer "Diverging www-site".data name

/-- Main part of one iteration of `check_www_site`: the empty-site report,
the negative-cached or live hostname resolution, and the memoized URL fetch
whose failures are classified by `handle_url_errors` (the caller increments
the unaccessible counter on a positive verdict). -/
def www_step_main (resolve : Str → Bool) (fetch : Str → Option Str)
    (check_host check_url : Bool) (s : WwwSt) (name : Str) (port : Port) :
    WwwSt :=
  if port.www_site = [] then
    { s with ctx :=
        (addNotif
          (addLog { s.ctx with counters := { s.ctx.counters with
              empty_www_site := s.ctx.counters.empty_www_site + 1 } }
            Level.error "Empty www-site".data)
          port.maintainer "Empty www-site".data name) }
  else if check_host then
    let hostname := extract_hostname port.www_site
    let inNeg := hostname ∈ s.unresolvable
    let resolvable := if inNeg then false else resolve hostname
    let s1 :=
      if inNeg then s
      else if resolve hostname then s
      else { s with unresolvable := s.unresolvable ++ [hostname] }
    if !resolvable then
      { s1 with ctx :=
          (addNotif
            (addLog { s1.ctx with counters := { s1.ctx.counters with
                unresolvable_www_site :=
                  s1.ctx.counters.unresolvable_www_site + 1 } }
              Level.error "Unresolvable www-site".data)
            port.maintainer "Unresolvable www-site".data name) }
    else if port.www_site ∈ s1.urlOk then s1
    else
      match alookup port.www_site s1.urlKo with
      | some err =>
        { s1 with ctx :=
            (replay_ctx s1.ctx name port.www_site err port.maintainer) }
      | none =>
        if check_url then
          match fetch port.www_site with
          | none =>
            { s1 with
                urlOk := s1.urlOk ++ [port.www_site]
                trace := s1.trace ++ [port.www_site] }
          | some err =>
            { s1 with
                urlKo := s1.urlKo ++ [(port.www_site, err)]
                trace := s1.trace ++ [port.www_site]
                ctx :=
                  (replay_ctx s1.ctx name port.www_site err
                    port.maintainer) }
        else s1
  else s

/-- One full iteration of `check_www_site`: the main part followed by the
`WWW` cross-check. -/
def www_step (resolve : Str → Bool) (fetch : Str → Option Str)
    (check_host check_url : Bool) (s : WwwSt) (np : Str × Port) : WwwSt :=
  let s1 := www_step_main resolve fetch check_host check_url s np.1 np.2
  { s1 with ctx := www_var_ctx s1.ctx np.1 np.2 }

/-- Embedding of `check_www_site` with the network as oracles: `resolve`
answers hostname resolution, `fetch`  returns `none` on success and the
error string of the raised exception on failure. -/
def check_www_site (resolve : Str → Bool) (fetch : Str → Option Str)
    (check_host check_url : Bool) (ctx : Ctx) (ports : List (Str × Port)) :
    WwwSt :=
  let s := ports.foldl (www_step resolve fetch check_host check_url)
    ⟨ctx, [], [], [], []⟩
  let c1 := addLog s.ctx Level.info "Found ports with empty www-site".data
  let c2 :=
    if check_host then
      let ch := addLog c1 Level.info
        "Found ports with unresolvable www-site".data
      if check_url then
        addLog ch Level.info "Found ports with unaccessible www-site".data
      else ch
    else c1
  { s with ctx :=
      (addLog c2 Level.info "Found ports with diverging www-site".data) }

/-- The configurable day thresholds of the `parameters["Limits"]` table. -/
structure Limits where
  plist_abuse : Nat := 7
  broken_since : Nat := 180
  forbidden_since : Nat := 90
  deprecated_since : Nat := 180
  unchanged_since : Nat := 1095
deriving DecidableEq, Repr

/-- Seconds in a day, converting day thresholds to timestamp arithmetic. -/
def daySeconds : Int := 86400

/-- Flag one status mark as present or stale depending on the Makefile age;
shared shape of the three notified branches of `check_marks`. -/
def flag_mark (ctx : Ctx) (maintainer name : Str) (stale : Bool)
    (staleKind recentKind : Str)
    (bumpStale bumpRecent : Counters → Counters) : Ctx :=
  if stale then
    addNotif { ctx with counters := bumpStale ctx.counters }
      maintainer staleKind name
  else
    addNotif { ctx with counters := bumpRecent ctx.counters }
      maintainer recentKind name

/-- Per-port body of `check_marks`.  Reading `port["Last modification"]`
for a port whose Makefile was never read would raise `KeyError` in Python;
that read is embedded as the `Except.error` branch. -/
def check_marks_port (limits : Limits) (today : Int) (ctx : Ctx)
    (name : Str) (port : Port) : Except Unit Ctx :=
  let broken :=
    match alookup "BROKEN".data port.vars with
    | none => Except.ok ctx
    | some _ =>
      match port.last_modification with
      | none => Except.error ()
      | some t =>
        Except.ok
          (flag_mark (addLog ctx Level.info "BROKEN mark".data)
            port.maintainer name
            (decide (t < today - limits.broken_since * daySeconds))
            "Marked as BROKEN for too long".data "Marked as BROKEN".data
            (fun c => { c with marked_broken_too_long :=
              c.marked_broken_too_long + 1 })
            (fun c => { c with marked_broken := c.marked_broken + 1 }))
  match broken with
  | Except.error e => Except.error e
  | Except.ok ctx1 =>
    let ctx2 :=
      match alookup "IGNORE".data port.vars with
      | none => ctx1
      | some _ =>
        addLog { ctx1 with counters := { ctx1.counters with
            marked_ignore := ctx1.counters.marked_ignore + 1 } }
          Level.debug "IGNORE mark".data
    let forbidden :=
      match alookup "FORBIDDEN".data port.vars with
      | none => Except.ok ctx2
      | some _ =>
        match port.last_modification with
        | none => Except.error ()
        | some t =>
          Except.ok
            (flag_mark (addLog ctx2 Level.info "FORBIDDEN mark".data)
              port.maintainer name
              (decide (t < today - limits.forbidden_since * daySeconds))
              "Marked as FORBIDDEN for too long".data
              "Marked as FORBIDDEN".data
              (fun c => { c with marked_forbidden_too_long :=
                c.marked_forbidden_too_long + 1 })
              (fun c => { c with marked_forbidden := c.marked_forbidden + 1 }))
    match forbidden with
    | Except.error e => Except.error e
    | Except.ok ctx3 =>
      match alookup "DEPRECATED".data port.vars with
      | none => Except.ok ctx3
      | some _ =>
        match port.last_modification with
        | none => Except.error ()
        | some t =>
          Except.ok
            (flag_mark (addLog ctx3 Level.info "DEPRECATED mark".data)
              port.maintainer name
              (decide (t < today - limits.deprecated_since * daySeconds))
              "Marked as DEPRECATED for too long".data
              "Marked as DEPRECATED".data
              (fun c => { c with marked_deprecated_too_long :=
                c.marked_deprecated_too_long + 1 })
              (fun c => { c with marked_deprecated :=
                c.marked_deprecated + 1 }))

/-- Embedding of `check_marks` over the port list. -/
def check_marks (limits : Limits) (today : Int) (ctx : Ctx) :
    List (Str × Port) → Except Unit Ctx
  | [] => Except.ok ctx
  | (n, p) :: rest =>
    match check_marks_port limits today ctx n p with
    | Except.error e => Except.error e
    | Except.ok ctx' => check_marks limits today ctx' rest

/-- Embedding of `check_static_ports`: an informational staleness flag for
ports whose Makefile timestamp is older than the configured window. -/
def check_static_ports (unchanged_days : Nat) (today : Int) (ctx : Ctx)
    (ports : List (Str × Port)) : Ctx :=
  ports.foldl
    (fun c (np : Str × Port) =>
      match np.2.last_modification with
      | none => c
      | some t =>
        if t < today - unchanged_days * daySeconds then
          addNotif
            (addLog { c with counters := { c.counters with
                unchanged_long_time := c.counters.unchanged_long_time + 1 } }
              Level.info "Unchanged for a long time".data)
            np.2.maintainer "Unchanged for a long time".data np.1
        else c)
    ctx

/-- The check sequence of `main` after loading and filtering, with the
filesystem and network as oracles.  No handler surrounds the calls in the
source, so an exception escaping `check_comment` or `check_marks` aborts the
remaining checks and the reporting phase, which the `Except` propagation
mirrors. -/
def runChecks (fs : FS) (resolve : Str → Bool) (fetch : Str → Option Str)
    (check_host check_url : Bool) (limits : Limits) (today : Int)
    (ctx : Ctx) (ports : List (Str × Port)) : Except Unit Ctx :=
  let r1 := update_with_makefiles fs ctx ports
  let ctx1 := r1.1
  let ports1 := r1.2
  let ctx2 := check_port_path fs ctx1 ports1
  let ctx3 := check_installation_pfx ctx2 ports1
  match check_comment ctx3 ports1 with
  | Except.error e => Except.error e
  | Except.ok ctx4 =>
    let ctx5 := check_description_file fs ctx4 ports1
    let ctx6 := check_plist fs limits.plist_abuse ctx5 ports1
    let ctx7 := check_maintainer ctx6 ports1
    let ctx8 := check_categories ctx7 ports1
    let ctx9 :=
      (check_www_site resolve fetch check_host check_url ctx8 ports1).ctx
    match check_marks limits today ctx9 ports1 with
    | Except.error e => Except.error e
    | Except.ok ctx10 =>
      Except.ok (check_static_ports limits.unchanged_since today ctx10 ports1)

/-- A filesystem on which nothing exists. -/
def fsNone : FS := ⟨fun _ => false, fun _ => false, fun _ => [], fun _ => 0⟩

/-- Ledger of one run's result for one maintainer (empty when the run
aborted with an exception). -/
def resultLedger (r : Except Unit Ctx) (m : Str) : List (Str × List Str) :=
  match r with
  | Except.ok c => (alookup m c.notifications).getD []
  | Except.error _ => []

/-- Counters of one run's result (all zero when the run aborted). -/
def resultCounters (r : Except Unit Ctx) : Counters :=
  match r with
  | Except.ok c => c.counters
  | Except.error _ => {}

/-- Well-formedness of the notification ledger: every port list is
duplicate-free, which the data model requires (the lists are set-like) and
`notify_maintainer` preserves. -/
def ledger_wf (ns : Notifs) : Prop :=
  ∀ me ∈ ns, ∀ ep ∈ me.2, List.Nodup ep.2

/-- INDEX line of the end-to-end scenario: one record named `foo-1.0` with
comment `too short`, an existing package directory, and an empty www-site
field. -/
def c8_index_line : Str :=
  "foo-1.0|/usr/ports/misc/foo|/usr/local|too short|/usr/ports/misc/foo/pkg-descr|mnt@x.org|misc||||||".data

/-- Filesystem of the end-to-end scenario: the package directory exists
with a description file and a plist file but no Makefile. -/
def c8_fs : FS :=
  ⟨fun p => p = "/usr/ports/misc/foo".data,
   fun p => p = "/usr/ports/misc/foo/pkg-descr".data
     || p = "/usr/ports/misc/foo/pkg-plist".data,
   fun p =>
     if p = "/usr/ports/misc/foo/pkg-descr".data then
       ["A sufficiently long description of the foo port".data]
     else [],
   fun _ => 0⟩

/-- Full run of the check sequence on the end-to-end scenario, with both
network checks disabled. -/
def c8_result : Except Unit Ctx :=
  runChecks c8_fs (fun _ => false) (fun _ => none) false false {} 0 {}
    (load_freebsd_ports_dict [c8_index_line]).ports

/-- INDEX line of a record whose comment field is the empty string. -/
def c7_line1 : Str :=
  "bad-1.0|/usr/ports/misc/bad|/usr/local||/usr/ports/misc/bad/pkg-descr|m1@x.org|misc||||||".data

/-- INDEX line of a well-formed record with a dot-ended comment, which the
comment check would flag if it were reached. -/
def c7_line2 : Str :=
  "dot-1.0|/usr/ports/misc/dot|/usr/local|Ends with a period.|/usr/ports/misc/dot/pkg-descr|m2@x.org|misc||||||".data

/-- Full run of the check sequence over the two-record index whose first
record has an empty comment. -/
def c7_result : Except Unit Ctx :=
  runChecks fsNone (fun _ => false) (fun _ => none) false false {} 0 {}
    (load_freebsd_ports_dict [c7_line1, c7_line2]).ports

/-- A port built directly from field values, with no Makefile variables;
used to state per-check properties. -/
def mkPort (path pfx cmt desc mnt cats www : Str) : Port :=
  { port_path := path
    install_pfx := pfx
    comment := cmt
    description_file := desc
    maintainer := mnt
    categories := cats
    extract_depends := []
    patch_depends := []
    www_site := www
    fetch_depends := []
    build_depentds := []
    run_depends := [] }

/-- A port whose only interesting fields are the www-site URL and the
maintainer, as used by the URL-check properties. -/
def mkWwwPort (url mnt : Str) : Port :=
  mkPort "/usr/ports/misc/p".data "/usr/local".data "A comment".data
    "/usr/ports/misc/p/pkg-descr".data mnt "misc".data url

/-- Context of a run result, with an empty context for an aborted run. -/
def resultCtx (r : Except Unit Ctx) : Ctx :=
  match r with
  | Except.ok c => c
  | Except.error _ => {}

/-- A port exercising all three comment rules at once: its comment has 71
characters, starts with a lowercase letter, and ends with a dot. -/
def c6_port : Port :=
  mkPort "/usr/ports/misc/c".data "/usr/local".data
    ('a' :: (List.replicate 69 'b' ++ ['.'])) "d".data "m@x.org".data
    "misc".data "https://example.org/".data

/-! Helper lemmas. -/

lemma trimTrailingWs_eq_rdropWhile (s : Str) :
    trimTrailingWs s = List.rdropWhile pyIsSpace s := rfl

lemma pyStrip_sub {c : Char} {s : Str} (h : c ∈ pyStrip s) : c ∈ s := by
  have h1 : c ∈ trimLeadingWs s := by
    have hpfx := List.rdropWhile_prefix pyIsSpace (trimLeadingWs s)
    rw [← trimTrailingWs_eq_rdropWhile] at hpfx
    exact hpfx.sublist.subset h
  exact (List.dropWhile_sublist pyIsSpace (l := s)).subset h1

lemma trimLeadingWs_pyStrip (s : Str) :
    trimLeadingWs (pyStrip s) = pyStrip s := by
  have hpfx : pyStrip s <+: trimLeadingWs s := by
    have := List.rdropWhile_prefix pyIsSpace (trimLeadingWs s)
    rwa [← trimTrailingWs_eq_rdropWhile] at this
  unfold trimLeadingWs
  cases hB : pyStrip s with
  | nil => simp
  | cons b bs =>
    rw [hB] at hpfx
    obtain ⟨t, ht⟩ := hpfx
    have h0 := List.head?_dropWhile_not pyIsSpace s
    rw [show List.dropWhile pyIsSpace s = trimLeadingWs s from rfl, ← ht] at h0
    simp only [List.cons_append, List.head?] at h0
    rw [List.dropWhile_cons, h0]
    simp

lemma pyStrip_idem (s : Str) : pyStrip (pyStrip s) = pyStrip s := by
  conv_lhs => rw [pyStrip, trimLeadingWs_pyStrip]
  rw [pyStrip, trimTrailingWs_eq_rdropWhile, trimTrailingWs_eq_rdropWhile]
  exact List.rdropWhile_idempotent pyIsSpace _

lemma mem_addPort_self (l : List Str) (p : Str) : p ∈ addPort l p := by
  unfold addPort
  by_cases h : p ∈ l <;> simp [h]

lemma mem_addPort {l : List Str} {x : Str} (p' : Str) (h : x ∈ l) :
    x ∈ addPort l p' := by
  unfold addPort
  by_cases h' : p' ∈ l <;> simp [h', h]

lemma addPort_idem (l : List Str) (p : Str) :
    addPort (addPort l p) p = addPort l p := by
  unfold addPort
  by_cases h : p ∈ l <;> simp [h]

lemma count_self_eq_one {l : List Str} {p : Str} (h : l.Nodup)
    (hm : p ∈ l) : l.count p = 1 := by
  induction l with
  | nil => cases hm
  | cons a rest ih =>
    rw [List.count_cons]
    rcases List.mem_cons.mp hm with h1 | h1
    · subst h1
      have hnm : p ∉ rest := (List.nodup_cons.mp h).1
      rw [List.count_eq_zero_of_not_mem hnm]
      simp
    · have hne : a ≠ p := by
        rintro rfl
        exact (List.nodup_cons.mp h).1 h1
      rw [ih (List.nodup_cons.mp h).2 h1]
      simp [hne]

lemma count_addPort {l : List Str} {p : Str} (h : l.Nodup) :
    (addPort l p).count p = 1 := by
  unfold addPort
  by_cases hm : p ∈ l
  · simp only [hm, if_true]
    exact count_self_eq_one h hm
  · simp only [hm, if_false]
    rw [List.count_append, List.count_eq_zero_of_not_mem hm]
    simp

lemma alookup_updErr (e' p' e : Str) (es : List (Str × List Str)) :
    alookup e (updErr e' p' es)
      = if e' = e then some (addPort ((alookup e es).getD []) p')
        else alookup e es := by
  induction es with
  | nil =>
    by_cases h : e' = e <;> simp [updErr, alookup, h, addPort]
  | cons hd rest ih =>
    obtain ⟨e₀, ps⟩ := hd
    by_cases h1 : e₀ = e'
    · subst h1
      by_cases h2 : e₀ = e <;> simp [updErr, alookup, h2]
    · by_cases h2 : e₀ = e
      · subst h2
        have h3 : ¬ e' = e₀ := fun hh => h1 hh.symm
        simp [updErr, alookup, h1, h3]
      · simp [updErr, alookup, h1, h2, ih]

lemma alookup_notify (m' e' p' m : Str) (ns : Notifs) :
    alookup m (notify_maintainer m' e' p' ns)
      = if m' = m then some (updErr e' p' ((alookup m ns).getD []))
        else alookup m ns := by
  induction ns with
  | nil =>
    by_cases h : m' = m <;> simp [notify_maintainer, alookup, updErr, h]
  | cons hd rest ih =>
    obtain ⟨m₀, es⟩ := hd
    by_cases h1 : m₀ = m'
    · subst h1
      by_cases h2 : m₀ = m <;> simp [notify_maintainer, alookup, h2]
    · by_cases h2 : m₀ = m
      · subst h2
        have h3 : ¬ m' = m₀ := fun hh => h1 hh.symm
        simp [notify_maintainer, alookup, h1, h3]
      · simp [notify_maintainer, alookup, h1, h2, ih]

lemma portsUnder_notify (m' e' p' m e : Str) (ns : Notifs) :
    portsUnder m e (notify_maintainer m' e' p' ns)
      = if m' = m ∧ e' = e then addPort (portsUnder m e ns) p'
        else portsUnder m e ns := by
  unfold portsUnder
  rw [alookup_notify]
  by_cases h1 : m' = m
  · rw [if_pos h1]
    simp only [Option.getD_some]
    rw [alookup_updErr]
    by_cases h2 : e' = e
    · simp [h1, h2]
    · simp [h1, h2]
  · simp [h1]

lemma alookup_mem {β : Type} {k : Str} {l : List (Str × β)} {v : β}
    (h : alookup k l = some v) : (k, v) ∈ l := by
  induction l with
  | nil => cases h
  | cons hd rest ih =>
    obtain ⟨k', v'⟩ := hd
    by_cases hk : k' = k
    · subst hk
      simp only [alookup, if_pos rfl] at h
      simp [alookup] at h
      simp [h]
    · simp only [alookup, if_neg hk] at h
      exact List.mem_cons_of_mem _ (ih h)

lemma portsUnder_nodup {ns : Notifs} (h : ledger_wf ns) (m e : Str) :
    (portsUnder m e ns).Nodup := by
  unfold portsUnder
  cases h1 : alookup m ns with
  | none => simp [alookup]
  | some es =>
    cases h2 : alookup e es with
    | none => simp [h2]
    | some ps =>
      simp only [Option.getD_some]
      rw [h2]
      exact h (m, es) (alookup_mem h1) (e, ps) (alookup_mem h2)

lemma updErr_idem (e p : Str) (es : List (Str × List Str)) :
    updErr e p (updErr e p es) = updErr e p es := by
  induction es with
  | nil => simp [updErr, addPort]
  | cons hd rest ih =>
    obtain ⟨e', ps⟩ := hd
    by_cases h : e' = e
    · subst h
      simp [updErr, addPort_idem]
    · simp [updErr, h, ih]

lemma notify_idem (m e p : Str) (ns : Notifs) :
    notify_maintainer m e p (notify_maintainer m e p ns)
      = notify_maintainer m e p ns := by
  induction ns with
  | nil => simp [notify_maintainer, updErr, addPort]
  | cons hd rest ih =>
    obtain ⟨m', es⟩ := hd
    by_cases h : m' = m
    · subst h
      simp [notify_maintainer, updErr_idem]
    · simp [notify_maintainer, h, ih]

/-- C5: the notification aggregator is idempotent — repeating
`notify_maintainer` with the same maintainer, issue kind and port leaves the
ledger unchanged, and on a well-formed (set-like) ledger the resulting entry
lists the port exactly once. -/
theorem c5_notify_idempotent (ns : Notifs) (m e p : Str)
    (hwf : ledger_wf ns) :
    notify_maintainer m e p (notify_maintainer m e p ns)
      = notify_maintainer m e p ns
    ∧ (portsUnder m e (notify_maintainer m e p ns)).count p = 1 := by
  refine ⟨notify_idem m e p ns, ?_⟩
  rw [portsUnder_notify]
  rw [if_pos ⟨rfl, rfl⟩]
  exact count_addPort (portsUnder_nodup hwf m e)

/-- Witness for C5 at the empty ledger. -/
theorem c5_witness :
    notify_maintainer "m@x.org".data "Kind".data "p1".data
        (notify_maintainer "m@x.org".data "Kind".data "p1".data [])
      = notify_maintainer "m@x.org".data "Kind".data "p1".data []
    ∧ (portsUnder "m@x.org".data "Kind".data
        (notify_maintainer "m@x.org".data "Kind".data "p1".data
          [])).count "p1".data = 1 :=
  c5_notify_idempotent [] "m@x.org".data "Kind".data "p1".data
    (fun me hme => absurd hme (List.not_mem_nil me))

/-- C1: loading the INDEX never aborts on a malformed or duplicate line —
a line whose pipe-separated field count is not 13 is dropped whole with one
reported error and no change to the accepted mapping; a line whose
identifier is already present is dropped whole with one reported rejection;
and an index of two lines sharing one identifier yields the mapping holding
only the first line's record together with exactly one rejection. -/
theorem c1_load_rejections :
    (∀ (st : LoadSt) (line : Str), (splitPipe line).length ≠ 13 →
      loadStep st line
        = { st with errors := st.errors ++ [LoadErr.badFields line] })
    ∧ (∀ (st : LoadSt) (line : Str), (splitPipe line).length = 13 →
        (alookup ((splitPipe line).getD 0 []) st.ports).isSome →
        loadStep st line
          = { st with errors := st.errors ++ [LoadErr.duplicate line] })
    ∧ (∀ l1 l2 : Str, (splitPipe l1).length = 13 →
        (splitPipe l2).length = 13 →
        (splitPipe l1).getD 0 [] = (splitPipe l2).getD 0 [] →
        load_freebsd_ports_dict [l1, l2]
          = { ports := [((splitPipe l1).getD 0 [],
                portOfFields (splitPipe l1))],
              errors := [LoadErr.duplicate l2] }) := by
  refine ⟨?_, ?_, ?_⟩
  · intro st line h
    simp [loadStep, h]
  · intro st line h13 hdup
    simp only [loadStep]
    rw [if_neg (by simp [h13])]
    rw [if_pos hdup]
  · intro l1 l2 h1 h2 hid
    show loadStep (loadStep {} l1) l2 = _
    have hs1 : loadStep {} l1
        = { ports := [((splitPipe l1).getD 0 [], portOfFields (splitPipe l1))],
            errors := [] } := by
      simp only [loadStep]
      rw [if_neg (by simp [h1])]
      rw [if_neg (by simp [alookup])]
      rfl
    rw [hs1]
    simp only [loadStep]
    rw [if_neg (by simp [h2])]
    rw [if_pos (by rw [← hid]; simp [alookup])]
    rfl

/-- Witness for C1: a two-field line is rejected as malformed, and a
duplicated line is rejected once with the first record kept. -/
theorem c1_witness :
    loadStep {} "a|b".data
      = { ports := ([] : List (Str × Port)),
          errors := [LoadErr.badFields "a|b".data] }
    ∧ load_freebsd_ports_dict [c7_line1, c7_line1]
      = { ports := [((splitPipe c7_line1).getD 0 [],
            portOfFields (splitPipe c7_line1))],
          errors := [LoadErr.duplicate c7_line1] } :=
  ⟨c1_load_rejections.1 {} "a|b".data (by decide),
   c1_load_rejections.2.2 c7_line1 c7_line1 (by decide) (by decide) rfl⟩

/-- C2: the recipe comment-stripping step is idempotent on comment-free
lines, and on a line holding an escaped `\#` it keeps the escaped character
in the extracted value while removing the real trailing comment — shown
both on the stripping step and through the full variable extraction. -/
theorem c2_strip_comments :
    (∀ l : Str, '#' ∉ l →
      stripCommentLine (stripCommentLine l) = stripCommentLine l)
    ∧ stripCommentLine "COMMENT=C\\# is a language # a comment".data
      = "COMMENT=C\\# is a language".data
    ∧ stripCommentLine
        (stripCommentLine "COMMENT=C\\# is a language # a comment".data)
      = stripCommentLine "COMMENT=C\\# is a language # a comment".data
    ∧ makefileVars ["COMMENT=C\\# is a language # a comment".data]
      = [("COMMENT".data, "C\\# is a language".data)] := by
  refine ⟨?_, by decide, by decide, by decide⟩
  intro l h
  have h1 : stripCommentLine l = pyStrip l := by
    unfold stripCommentLine
    rw [if_pos h]
  have h2 : '#' ∉ pyStrip l := fun hc => h (pyStrip_sub hc)
  rw [h1]
  unfold stripCommentLine
  rw [if_pos h2]
  exact pyStrip_idem l

/-- Witness for C2: idempotence applied to a concrete comment-free line. -/
theorem c2_witness :
    stripCommentLine (stripCommentLine "  CATEGORIES=misc devel ".data)
      = stripCommentLine "  CATEGORIES=misc devel ".data :=
  c2_strip_comments.1 "  CATEGORIES=misc devel ".data (by decide)

/-- C10: the comment check is total exactly on records with nonempty
comments — an empty comment reaches the empty-string indexing and raises
(the embedded error branch), and under the nonemptiness precondition the
error branch is unreachable and the check returns normally. -/
theorem c10_comment_totality :
    (∀ (ctx : Ctx) (name : Str) (p : Port) (rest : List (Str × Port)),
      p.comment = [] →
      check_comment ctx ((name, p) :: rest) = Except.error ())
    ∧ (∀ (ctx : Ctx) (ports : List (Str × Port)),
        (∀ np ∈ ports, (Prod.snd np).comment ≠ []) →
        ∃ c, check_comment ctx ports = Except.ok c) := by
  constructor
  · intro ctx name p rest h
    simp [check_comment, check_comment_list, check_comment_port, h]
  · intro ctx ports h
    have hlist : ∀ (ps : List (Str × Port)) (c : Ctx),
        (∀ np ∈ ps, (Prod.snd np).comment ≠ []) →
        ∃ c', check_comment_list c ps = Except.ok c' := by
      intro ps
      induction ps with
      | nil => exact fun c _ => ⟨c, rfl⟩
      | cons hd rest ih =>
        intro c hne
        obtain ⟨n, p⟩ := hd
        have hp : p.comment ≠ [] := hne (n, p) (List.mem_cons_self _ _)
        have hport : ∃ c', check_comment_port c n p = Except.ok c' := by
          unfold check_comment_port
          cases hc : p.comment with
          | nil => exact absurd hc hp
          | cons c0 cs =>
            dsimp only
            repeat' split
            all_goals exact ⟨_, rfl⟩
        obtain ⟨c', hc'⟩ := hport
        have := ih c' (fun np hm => hne np (List.mem_cons_of_mem _ hm))
        obtain ⟨c'', hc''⟩ := this
        exact ⟨c'', by simp [check_comment_list, hc', hc'']⟩
    obtain ⟨c', hc'⟩ := hlist ports ctx h
    have hok : check_comment ctx ports
        = Except.ok
          (addLog
            (addLog
              (addLog
                (addLog c' Level.info
                  "Found ports with too long comments".data)
                Level.info "Found ports with uncapitalized comments".data)
              Level.info "Found ports with dot-ended comments".data)
            Level.info "Found ports with diverging comments".data) := by
      unfold check_comment
      rw [hc']
    exact ⟨_, hok⟩

/-- Witness for C10: a record with an empty comment aborts the check; a
record set with nonempty comments passes it. -/
theorem c10_witness :
    check_comment {}
      [("bad-1.0".data, portOfFields (splitPipe c7_line1))]
      = Except.error ()
    ∧ ∃ c, check_comment {}
        [("dot-1.0".data, portOfFields (splitPipe c7_line2))]
      = Except.ok c :=
  ⟨c10_comment_totality.1 {} "bad-1.0".data
      (portOfFields (splitPipe c7_line1)) [] (by decide),
   c10_comment_totality.2 {}
      [("dot-1.0".data, portOfFields (splitPipe c7_line2))] (by decide)⟩

/-- C9: because the Python conjunction binds tighter than the disjunction
in the fifth and sixth allow-list branches, every port whose name starts
with `queue-fix` — and every port whose name starts with `zoneinfo-` — is
accepted by the installation-prefix check whatever its prefix value is: no
counter increment, no notification, and only the final info log line. -/
theorem c9_pfx_allowlist_precedence (ctx : Ctx) (name : Str) (p : Port)
    (h : "queue-fix".data.isPrefixOf name = true
      ∨ "zoneinfo-".data.isPrefixOf name = true) :
    (check_installation_pfx ctx [(name, p)]).counters = ctx.counters
    ∧ (check_installation_pfx ctx [(name, p)]).notifications
      = ctx.notifications
    ∧ (check_installation_pfx ctx [(name, p)]).logs
      = ctx.logs
        ++ [(Level.info,
          "Found ports with unusual installation-prefix".data)] := by
  have hu : usual_install_pfx name p.install_pfx = true := by
    unfold usual_install_pfx
    rcases h with h | h <;> simp [h]
  refine ⟨?_, ?_, ?_⟩ <;> simp [check_installation_pfx, hu, addLog]

/-- Witness for C9 at a port named `queue-fix-1.0` with prefix `/weird`. -/
theorem c9_witness :
    (check_installation_pfx {}
      [("queue-fix-1.0".data,
        mkPort "/usr/ports/misc/q".data "/weird".data "A comment".data
          "d".data "m@x.org".data "misc".data [])]).counters
      = ({} : Ctx).counters
    ∧ (check_installation_pfx {}
      [("queue-fix-1.0".data,
        mkPort "/usr/ports/misc/q".data "/weird".data "A comment".data
          "d".data "m@x.org".data "misc".data [])]).notifications
      = ({} : Ctx).notifications
    ∧ (check_installation_pfx {}
      [("queue-fix-1.0".data,
        mkPort "/usr/ports/misc/q".data "/weird".data "A comment".data
          "d".data "m@x.org".data "misc".data [])]).logs
      = ({} : Ctx).logs
        ++ [(Level.info,
          "Found ports with unusual installation-prefix".data)] :=
  c9_pfx_allowlist_precedence {} "queue-fix-1.0".data
    (mkPort "/usr/ports/misc/q".data "/weird".data "A comment".data
      "d".data "m@x.org".data "misc".data []) (Or.inl (by decide))

lemma uwm_port_comment (fs : FS) (n : Str) (p : Port) (ctx : Ctx) :
    ((uwm_port fs n p ctx).1).comment = p.comment := by
  unfold uwm_port
  split
  · rfl
  · dsimp only
    split
    · rfl
    · rfl

lemma uwm_snd_comment (fs : FS) :
    ∀ (ports : List (Str × Port)) (ctx : Ctx),
    ((update_with_makefiles fs ctx ports).2).map
        (fun np => (np.1, np.2.comment))
      = ports.map (fun np => (np.1, np.2.comment)) := by
  intro ports
  induction ports with
  | nil => intro ctx; rfl
  | cons hd rest ih =>
    intro ctx
    obtain ⟨n, p⟩ := hd
    show ((update_with_makefiles fs ctx ((n, p) :: rest)).2).map _ = _
    rcases h1 : uwm_port fs n p ctx with ⟨p', ctx'⟩
    rcases h2 : update_with_makefiles fs ctx' rest with ⟨ctxF, rest'⟩
    have hstep : update_with_makefiles fs ctx ((n, p) :: rest)
        = (ctxF, (n, p') :: rest') := by
      simp [update_with_makefiles, h1, h2]
    rw [hstep]
    have hpc : p'.comment = p.comment := by
      have := uwm_port_comment fs n p ctx
      rw [h1] at this
      exact this
    have hrest : rest'.map (fun np => (np.1, np.2.comment))
        = rest.map (fun np => (np.1, np.2.comment)) := by
      have := ih ctx'
      rw [h2] at this
      exact this
    simp [hpc, hrest]

lemma check_comment_port_empty (ctx : Ctx) (n : Str) {p : Port}
    (h : p.comment = []) : check_comment_port ctx n p = Except.error () := by
  unfold check_comment_port
  simp [h]

lemma check_comment_port_ok_of_ne {p : Port} (hp : p.comment ≠ [])
    (ctx : Ctx) (n : Str) :
    ∃ c', check_comment_port ctx n p = Except.ok c' := by
  unfold check_comment_port
  cases hc : p.comment with
  | nil => exact absurd hc hp
  | cons c0 cs =>
    dsimp only
    repeat' split
    all_goals exact ⟨_, rfl⟩

lemma check_comment_list_err :
    ∀ (ports : List (Str × Port)) (ctx : Ctx),
    (∃ np ∈ ports, (Prod.snd np).comment = []) →
    check_comment_list ctx ports = Except.error () := by
  intro ports
  induction ports with
  | nil =>
    intro ctx h
    obtain ⟨np, hm, _⟩ := h
    cases hm
  | cons hd rest ih =>
    intro ctx h
    obtain ⟨n, p⟩ := hd
    by_cases hc : p.comment = []
    · simp [check_comment_list, check_comment_port_empty ctx n hc]
    · obtain ⟨c', hc'⟩ := check_comment_port_ok_of_ne hc ctx n
      have hrest : ∃ np ∈ rest, (Prod.snd np).comment = [] := by
        obtain ⟨np, hm, hnp⟩ := h
        rcases List.mem_cons.mp hm with h1 | h1
        · exfalso
          rw [h1] at hnp
          exact hc hnp
        · exact ⟨np, h1, hnp⟩
      simp [check_comment_list, hc', ih c' hrest]

lemma check_comment_err {ports : List (Str × Port)} (ctx : Ctx)
    (h : ∃ np ∈ ports, (Prod.snd np).comment = []) :
    check_comment ctx ports = Except.error () := by
  unfold check_comment
  rw [check_comment_list_err ports ctx h]

/-- C7 counterexample: the claim of per-record failure isolation fails on
the code — over an index whose first record has an empty comment, the run
aborts with the propagated exception and produces no report, although the
second record (whose dot-ended comment the comment check would flag on its
own) was still pending. -/
theorem c7_counterexample :
    c7_result = Except.error ()
    ∧ (resultCounters (check_comment {}
        [("dot-1.0".data,
          portOfFields (splitPipe c7_line2))])).dot_ended_comments = 1 := by
  exact ⟨rfl, by decide⟩

/-- C7 amended: checks are not isolated per record — an exception raised
while checking one record (here the `IndexError` from indexing an empty
comment) propagates out of the check loop, skipping the remaining records
and all later checks, and the run produces no report. -/
theorem c7_amended (fs : FS) (resolve : Str → Bool)
    (fetch : Str → Option Str) (ch cu : Bool) (limits : Limits)
    (today : Int) (ctx : Ctx) (ports : List (Str × Port))
    (h : ∃ np ∈ ports, (Prod.snd np).comment = []) :
    runChecks fs resolve fetch ch cu limits today ctx ports
      = Except.error () := by
  rcases hu : update_with_makefiles fs ctx ports with ⟨ctx1, ports1⟩
  have hmap := uwm_snd_comment fs ports ctx
  rw [hu] at hmap
  have h1 : ∃ np ∈ ports1, (Prod.snd np).comment = [] := by
    obtain ⟨np, hm, hnp⟩ := h
    have hin : (np.1, np.2.comment)
        ∈ ports1.map (fun np => (np.1, np.2.comment)) := by
      rw [hmap]
      exact List.mem_map_of_mem _ hm
    obtain ⟨np', hm', heq⟩ := List.mem_map.mp hin
    refine ⟨np', hm', ?_⟩
    have := congrArg Prod.snd heq
    simpa [hnp] using this
  have herr := check_comment_err
    (check_installation_pfx (check_port_path fs ctx1 ports1) ports1) h1
  simp [runChecks, hu, herr]

/-- Witness for C7's amended statement at the concrete two-record index. -/
theorem c7_witness :
    runChecks fsNone (fun _ => false) (fun _ => none) false false {} 0 {}
      (load_freebsd_ports_dict [c7_line1, c7_line2]).ports
      = Except.error () :=
  c7_amended fsNone (fun _ => false) (fun _ => none) false false {} 0 {}
    (load_freebsd_ports_dict [c7_line1, c7_line2]).ports (by decide)

/-- C8 counterexample: on the end-to-end scenario (one record, comment
`too short`, existing directory without a recipe file, empty site field)
the maintainer's ledger holds three issue kinds, not the claimed two — the
lowercase first letter of the comment is flagged as well. -/
theorem c8_counterexample :
    (resultLedger c8_result "mnt@x.org".data).length = 3
    ∧ ¬ (resultLedger c8_result "mnt@x.org".data).length = 2 := by
  exact ⟨by decide, by decide⟩

/-- C8 amended: on the end-to-end scenario the run reports the missing
recipe once and the empty site once, and the ledger holds exactly three
issue kinds — missing recipe, uncapitalized comment, and empty site — each
listing exactly the one package id. -/
theorem c8_amended :
    resultLedger c8_result "mnt@x.org".data
      = [("Nonexistent Makefile".data, ["foo-1.0".data]),
         ("Uncapitalized comments".data, ["foo-1.0".data]),
         ("Empty www-site".data, ["foo-1.0".data])]
    ∧ (resultCounters c8_result).nonexistent_makefile = 1
    ∧ (resultCounters c8_result).empty_www_site = 1
    ∧ (resultCounters c8_result).uncapitalized_comments = 1 := by
  refine ⟨by decide, by decide, by decide, by decide⟩

/-- C6: the comment check flags the length warning exactly when the comment
exceeds 70 characters, flags an error exactly when the first character is a
lowercase letter, flags an error exactly when the comment ends with a dot,
and notifies the record's maintainer for each flagged condition. -/
theorem c6_comment_rules (ctx : Ctx) (name : Str) (p : Port) (c0 : Char)
    (cs : Str) (hcm : p.comment = c0 :: cs)
    (hv : alookup "COMMENT".data p.vars = none) :
    check_comment_port ctx name p
      = Except.ok (resultCtx (check_comment_port ctx name p))
    ∧ (resultCtx (check_comment_port ctx name p)).counters.too_long_comments
      = ctx.counters.too_long_comments
        + (if p.comment.length > 70 then 1 else 0)
    ∧ (resultCtx (check_comment_port ctx
        name p)).counters.uncapitalized_comments
      = ctx.counters.uncapitalized_comments
        + (if ('a' ≤ c0 && c0 ≤ 'z') = true then 1 else 0)
    ∧ (resultCtx (check_comment_port ctx name p)).counters.dot_ended_comments
      = ctx.counters.dot_ended_comments
        + (if p.comment.getLast? = some '.' then 1 else 0)
    ∧ (p.comment.length > 70 →
        name ∈ portsUnder p.maintainer "Too long comments".data
          (resultCtx (check_comment_port ctx name p)).notifications)
    ∧ (('a' ≤ c0 && c0 ≤ 'z') = true →
        name ∈ portsUnder p.maintainer "Uncapitalized comments".data
          (resultCtx (check_comment_port ctx name p)).notifications)
    ∧ (p.comment.getLast? = some '.' →
        name ∈ portsUnder p.maintainer "Dot-ended comments".data
          (resultCtx (check_comment_port ctx name p)).notifications) := by
  have k1 : "Uncapitalized comments".data ≠ "Too long comments".data := by
    decide
  have k2 : "Dot-ended comments".data ≠ "Too long comments".data := by decide
  have k3 : "Dot-ended comments".data ≠ "Uncapitalized comments".data := by
    decide
  by_cases h1 : 70 < cs.length + 1 <;>
    by_cases h2 : ('a' ≤ c0 && c0 ≤ 'z') = true <;>
      by_cases h3 : List.getLast? (c0 :: cs) = some '.' <;>
        simp [check_comment_port, hcm, hv, h1, h2, h3, resultCtx, addNotif,
          addLog, portsUnder_notify, mem_addPort_self, k1, k2, k3]

/-- Witness for C6 on a 71-character, lowercase-starting, dot-ended
comment. -/
theorem c6_witness :
    check_comment_port {} "n".data c6_port
      = Except.ok (resultCtx (check_comment_port {} "n".data c6_port))
    ∧ (resultCtx (check_comment_port {}
        "n".data c6_port)).counters.too_long_comments
      = ({} : Ctx).counters.too_long_comments
        + (if c6_port.comment.length > 70 then 1 else 0)
    ∧ (resultCtx (check_comment_port {}
        "n".data c6_port)).counters.uncapitalized_comments
      = ({} : Ctx).counters.uncapitalized_comments
        + (if ('a' ≤ 'a' && 'a' ≤ 'z') = true then 1 else 0)
    ∧ (resultCtx (check_comment_port {}
        "n".data c6_port)).counters.dot_ended_comments
      = ({} : Ctx).counters.dot_ended_comments
        + (if c6_port.comment.getLast? = some '.' then 1 else 0)
    ∧ (c6_port.comment.length > 70 →
        "n".data ∈ portsUnder c6_port.maintainer "Too long comments".data
          (resultCtx (check_comment_port {} "n".data c6_port)).notifications)
    ∧ (('a' ≤ 'a' && 'a' ≤ 'z') = true →
        "n".data ∈ portsUnder c6_port.maintainer
          "Uncapitalized comments".data
          (resultCtx (check_comment_port {} "n".data c6_port)).notifications)
    ∧ (c6_port.comment.getLast? = some '.' →
        "n".data ∈ portsUnder c6_port.maintainer "Dot-ended comments".data
          (resultCtx (check_comment_port {} "n".data c6_port)).notifications)
    :=
  c6_comment_rules {} "n".data c6_port 'a'
    (List.replicate 69 'b' ++ ['.']) rfl rfl

lemma www_step_fetch_ko (resolve : Str → Bool) (fetch : Str → Option Str)
    (ctx : Ctx) (n m u err : Str) (tr : List Str)
    (h1 : u ≠ []) (h2 : resolve (extract_hostname u) = true)
    (h3 : fetch u = some err) :
    www_step resolve fetch true true ⟨ctx, [], [], [], tr⟩
        (n, mkWwwPort u m)
      = ⟨replay_ctx ctx n u err m, [], [], [(u, err)], tr ++ [u]⟩ := by
  unfold www_step www_step_main www_var_ctx
  simp [mkWwwPort, mkPort, h1, h2, h3, alookup]

lemma www_step_replay (resolve : Str → Bool) (fetch : Str → Option Str)
    (ctx : Ctx) (n m u err : Str) (tr : List Str)
    (h1 : u ≠ []) (h2 : resolve (extract_hostname u) = true) :
    www_step resolve fetch true true ⟨ctx, [], [], [(u, err)], tr⟩
        (n, mkWwwPort u m)
      = ⟨replay_ctx ctx n u err m, [], [], [(u, err)], tr⟩ := by
  unfold www_step www_step_main www_var_ctx
  simp [mkWwwPort, mkPort, h1, h2, alookup]

/-- C4: classification of fetch failures in the www-site check — an HTTP
404 failure is an error-severity, notified finding counted under the
unaccessible counter; an HTTP 301 failure changes no counter and notifies
nobody, leaving only an informational log event; and a
name-does-not-resolve transport failure increments the unresolvable
counter, not the unaccessible one, without notifying. -/
theorem c4_url_error_classification (resolve : Str → Bool)
    (fetch : Str → Option Str) (ctx : Ctx) (n m u : Str)
    (h1 : u ≠ []) (h2 : resolve (extract_hostname u) = true) :
    (fetch u = some "HTTP Error 404: Not Found".data →
      (check_www_site resolve fetch true true ctx
          [(n, mkWwwPort u m)]).ctx.counters.unaccessible_www_site
        = ctx.counters.unaccessible_www_site + 1
      ∧ (check_www_site resolve fetch true true ctx
          [(n, mkWwwPort u m)]).ctx.counters.unresolvable_www_site
        = ctx.counters.unresolvable_www_site
      ∧ n ∈ portsUnder m "HTTP Error 404 (Not found) on www-site".data
          (check_www_site resolve fetch true true ctx
            [(n, mkWwwPort u m)]).ctx.notifications
      ∧ (Level.error, "HTTP Error 404 (Not found) on www-site".data)
          ∈ (check_www_site resolve fetch true true ctx
            [(n, mkWwwPort u m)]).ctx.logs)
    ∧ (fetch u = some "HTTP Error 301: Moved Permanently".data →
      (check_www_site resolve fetch true true ctx
          [(n, mkWwwPort u m)]).ctx.counters = ctx.counters
      ∧ (check_www_site resolve fetch true true ctx
          [(n, mkWwwPort u m)]).ctx.notifications = ctx.notifications
      ∧ (Level.info, "HTTP Error 301 (Moved permanently) on www-site".data)
          ∈ (check_www_site resolve fetch true true ctx
            [(n, mkWwwPort u m)]).ctx.logs)
    ∧ (fetch u = some "<urlopen error [Errno 8] Name does not resolve>".data →
      (check_www_site resolve fetch true true ctx
          [(n, mkWwwPort u m)]).ctx.counters.unresolvable_www_site
        = ctx.counters.unresolvable_www_site + 1
      ∧ (check_www_site resolve fetch true true ctx
          [(n, mkWwwPort u m)]).ctx.counters.unaccessible_www_site
        = ctx.counters.unaccessible_www_site
      ∧ (check_www_site resolve fetch true true ctx
          [(n, mkWwwPort u m)]).ctx.notifications = ctx.notifications
      ∧ (Level.error, "Unresolvable www-site".data)
          ∈ (check_www_site resolve fetch true true ctx
            [(n, mkWwwPort u m)]).ctx.logs) := by
  refine ⟨?_, ?_, ?_⟩
  · intro hf
    have hstep := www_step_fetch_ko resolve fetch ctx n m u
      "HTTP Error 404: Not Found".data [] h1 h2 hf
    have hcl : classify_url_error "HTTP Error 404: Not Found".data
        = ⟨true, "HTTP Error 404 (Not found) on www-site".data,
            Level.error, false⟩ := by decide
    simp only [check_www_site, List.foldl_cons, List.foldl_nil, hstep]
    simp [replay_ctx, handle_url_errors, hcl, addNotif, addLog,
      portsUnder_notify, mem_addPort_self]
  · intro hf
    have hstep := www_step_fetch_ko resolve fetch ctx n m u
      "HTTP Error 301: Moved Permanently".data [] h1 h2 hf
    have hcl : classify_url_error "HTTP Error 301: Moved Permanently".data
        = ⟨false, "HTTP Error 301 (Moved permanently) on www-site".data,
            Level.info, false⟩ := by decide
    simp only [check_www_site, List.foldl_cons, List.foldl_nil, hstep]
    simp [replay_ctx, handle_url_errors, hcl, addNotif, addLog]
  · intro hf
    have hstep := www_step_fetch_ko resolve fetch ctx n m u
      "<urlopen error [Errno 8] Name does not resolve>".data [] h1 h2 hf
    have hcl : classify_url_error
        "<urlopen error [Errno 8] Name does not resolve>".data
        = ⟨false, "Unresolvable www-site".data, Level.error, true⟩ := by
      decide
    simp only [check_www_site, List.foldl_cons, List.foldl_nil, hstep]
    simp [replay_ctx, handle_url_errors, hcl, addNotif, addLog]

/-- Witness for C4: a 404 answer on a concrete URL is counted, notified
and logged at error severity. -/
theorem c4_witness :
    (check_www_site (fun _ => true)
        (fun _ => some "HTTP Error 404: Not Found".data) true true {}
        [("p1".data, mkWwwPort "https://example.org/".data
          "m@x.org".data)]).ctx.counters.unaccessible_www_site
      = ({} : Ctx).counters.unaccessible_www_site + 1
    ∧ (check_www_site (fun _ => true)
        (fun _ => some "HTTP Error 404: Not Found".data) true true {}
        [("p1".data, mkWwwPort "https://example.org/".data
          "m@x.org".data)]).ctx.counters.unresolvable_www_site
      = ({} : Ctx).counters.unresolvable_www_site
    ∧ "p1".data ∈ portsUnder "m@x.org".data
        "HTTP Error 404 (Not found) on www-site".data
        (check_www_site (fun _ => true)
          (fun _ => some "HTTP Error 404: Not Found".data) true true {}
          [("p1".data, mkWwwPort "https://example.org/".data
            "m@x.org".data)]).ctx.notifications
    ∧ (Level.error, "HTTP Error 404 (Not found) on www-site".data)
        ∈ (check_www_site (fun _ => true)
          (fun _ => some "HTTP Error 404: Not Found".data) true true {}
          [("p1".data, mkWwwPort "https://example.org/".data
            "m@x.org".data)]).ctx.logs :=
  (c4_url_error_classification (fun _ => true)
    (fun _ => some "HTTP Error 404: Not Found".data) {} "p1".data
    "m@x.org".data "https://example.org/".data (by decide) rfl).1 rfl

lemma alookup_none_iff {β : Type} {k : Str} {l : List (Str × β)} :
    alookup k l = none ↔ k ∉ l.map Prod.fst := by
  induction l with
  | nil =>
    constructor
    · intro _ hm
      cases hm
    · intro _
      rfl
  | cons hd rest ih =>
    obtain ⟨k', v⟩ := hd
    by_cases h : k' = k
    · subst h
      simp only [alookup, if_pos rfl, List.map_cons]
      constructor
      · intro hh
        exact absurd hh (Option.some_ne_none v)
      · intro hh
        exact absurd (List.mem_cons_self _ _) hh
    · have h' : ¬ k = k' := fun hh => h hh.symm
      simp only [alookup, if_neg h, List.map_cons]
      rw [ih]
      constructor
      · intro hh hmem
        rcases List.mem_cons.mp hmem with hm | hm
        · exact h' hm
        · exact hh hm
      · intro hh hm
        exact hh (List.mem_cons_of_mem _ hm)

lemma www_fetch_ok_inv {tr ok : List Str} {ko : List (Str × Str)} {u : Str}
    (h1 : tr.Nodup) (h2 : ∀ x ∈ tr, x ∈ ok ∨ x ∈ ko.map Prod.fst)
    (hok : u ∉ ok) (hko : alookup u ko = none) :
    (tr ++ [u]).Nodup
    ∧ ∀ x ∈ tr ++ [u], x ∈ ok ++ [u] ∨ x ∈ ko.map Prod.fst := by
  have hu : u ∉ tr := fun hu =>
    (h2 u hu).elim hok (fun hm => (alookup_none_iff.mp hko) hm)
  constructor
  · simp [List.nodup_append, h1]
    exact hu
  · intro x hx
    rcases List.mem_append.mp hx with hx | hx
    · rcases h2 x hx with h | h
      · exact Or.inl (List.mem_append_left _ h)
      · exact Or.inr h
    · simp at hx
      subst hx
      exact Or.inl (List.mem_append_right _ (List.mem_singleton_self _))

lemma www_fetch_ko_inv {tr ok : List Str} {ko : List (Str × Str)}
    {u err : Str}
    (h1 : tr.Nodup) (h2 : ∀ x ∈ tr, x ∈ ok ∨ x ∈ ko.map Prod.fst)
    (hok : u ∉ ok) (hko : alookup u ko = none) :
    (tr ++ [u]).Nodup
    ∧ ∀ x ∈ tr ++ [u],
        x ∈ ok ∨ x ∈ (ko ++ [(u, err)]).map Prod.fst := by
  have hu : u ∉ tr := fun hu =>
    (h2 u hu).elim hok (fun hm => (alookup_none_iff.mp hko) hm)
  constructor
  · simp [List.nodup_append, h1]
    exact hu
  · intro x hx
    rcases List.mem_append.mp hx with hx | hx
    · rcases h2 x hx with h | h
      · exact Or.inl h
      · exact Or.inr (by rw [List.map_append]; exact List.mem_append_left _ h)
    · simp at hx
      subst hx
      exact Or.inr (by simp)

lemma www_step_inv (resolve : Str → Bool) (fetch : Str → Option Str)
    (ch cu : Bool) (s : WwwSt) (np : Str × Port)
    (h1 : s.trace.Nodup)
    (h2 : ∀ x ∈ s.trace, x ∈ s.urlOk ∨ x ∈ s.urlKo.map Prod.fst) :
    (www_step resolve fetch ch cu s np).trace.Nodup
    ∧ ∀ x ∈ (www_step resolve fetch ch cu s np).trace,
        x ∈ (www_step resolve fetch ch cu s np).urlOk
        ∨ x ∈ (www_step resolve fetch ch cu s np).urlKo.map Prod.fst := by
  obtain ⟨n, p⟩ := np
  have htr : (www_step resolve fetch ch cu s (n, p)).trace
      = (www_step_main resolve fetch ch cu s n p).trace := rfl
  have hok : (www_step resolve fetch ch cu s (n, p)).urlOk
      = (www_step_main resolve fetch ch cu s n p).urlOk := rfl
  have hko : (www_step resolve fetch ch cu s (n, p)).urlKo
      = (www_step_main resolve fetch ch cu s n p).urlKo := rfl
  rw [htr, hok, hko]
  unfold www_step_main
  repeat' split
  all_goals try exact ⟨h1, h2⟩
  all_goals dsimp only
  all_goals repeat' split
  all_goals try exact ⟨h1, h2⟩
  all_goals
    first
      | exact www_fetch_ok_inv h1 h2 (by assumption) (by assumption)
      | exact www_fetch_ko_inv h1 h2 (by assumption) (by assumption)

lemma www_foldl_inv (resolve : Str → Bool) (fetch : Str → Option Str)
    (ch cu : Bool) :
    ∀ (ports : List (Str × Port)) (s : WwwSt),
    s.trace.Nodup →
    (∀ x ∈ s.trace, x ∈ s.urlOk ∨ x ∈ s.urlKo.map Prod.fst) →
    (ports.foldl (www_step resolve fetch ch cu) s).trace.Nodup := by
  intro ports
  induction ports with
  | nil => intro s hh1 _; exact hh1
  | cons hd rest ih =>
    intro s hh1 hh2
    rw [List.foldl_cons]
    obtain ⟨ha, hb⟩ := www_step_inv resolve fetch ch cu s hd hh1 hh2
    exact ih _ ha hb

lemma replay_ctx_notifs {err : Str} (ctx : Ctx) (n u m : Str)
    (h : (classify_url_error err).isUnaccessible = true) :
    (replay_ctx ctx n u err m).notifications
      = notify_maintainer m (classify_url_error err).reason n
          ctx.notifications := by
  by_cases hui : (classify_url_error err).unresolvIncrement = true <;>
    simp [replay_ctx, handle_url_errors, h, hui, addNotif, addLog]

/-- C3: URL probe memoization — over any run, every URL is live-fetched at
most once (the fetch trace has no duplicates); and for two records sharing
one URL whose single fetch fails with an error classified as unaccessible,
the trace holds exactly that one URL while both maintainers are notified
for their respective package (the second through the cached result). -/
theorem c3_url_memoization :
    (∀ (resolve : Str → Bool) (fetch : Str → Option Str) (ch cu : Bool)
      (ctx : Ctx) (ports : List (Str × Port)),
      (check_www_site resolve fetch ch cu ctx ports).trace.Nodup)
    ∧ (∀ (resolve : Str → Bool) (fetch : Str → Option Str) (ctx : Ctx)
        (n1 n2 m1 m2 u err : Str),
        u ≠ [] → resolve (extract_hostname u) = true →
        fetch u = some err →
        (classify_url_error err).isUnaccessible = true →
        (check_www_site resolve fetch true true ctx
          [(n1, mkWwwPort u m1), (n2, mkWwwPort u m2)]).trace = [u]
        ∧ n1 ∈ portsUnder m1 (classify_url_error err).reason
            (check_www_site resolve fetch true true ctx
              [(n1, mkWwwPort u m1),
               (n2, mkWwwPort u m2)]).ctx.notifications
        ∧ n2 ∈ portsUnder m2 (classify_url_error err).reason
            (check_www_site resolve fetch true true ctx
              [(n1, mkWwwPort u m1),
               (n2, mkWwwPort u m2)]).ctx.notifications) := by
  constructor
  · intro resolve fetch ch cu ctx ports
    exact www_foldl_inv resolve fetch ch cu ports ⟨ctx, [], [], [], []⟩
      List.nodup_nil (fun x hx => absurd hx (List.not_mem_nil x))
  · intro resolve fetch ctx n1 n2 m1 m2 u err h1 h2 h3 h4
    have hstep1 := www_step_fetch_ko resolve fetch ctx n1 m1 u err [] h1 h2 h3
    simp only [List.nil_append] at hstep1
    have hstep2 := www_step_replay resolve fetch
      (replay_ctx ctx n1 u err m1) n2 m2 u err [u] h1 h2
    have hfold : List.foldl (www_step resolve fetch true true)
        ⟨ctx, [], [], [], []⟩
        [(n1, mkWwwPort u m1), (n2, mkWwwPort u m2)]
        = ⟨replay_ctx (replay_ctx ctx n1 u err m1) n2 u err m2,
            [], [], [(u, err)], [u]⟩ := by
      rw [List.foldl_cons, hstep1, List.foldl_cons, hstep2, List.foldl_nil]
    have hnot : (check_www_site resolve fetch true true ctx
        [(n1, mkWwwPort u m1), (n2, mkWwwPort u m2)]).ctx.notifications
        = notify_maintainer m2 (classify_url_error err).reason n2
            (notify_maintainer m1 (classify_url_error err).reason n1
              ctx.notifications) := by
      simp [check_www_site, hfold, addLog, replay_ctx_notifs _ _ _ _ h4]
    refine ⟨?_, ?_, ?_⟩
    · simp [check_www_site, hfold, addLog]
    · rw [hnot, portsUnder_notify]
      split_ifs with hc
      · apply mem_addPort
        rw [portsUnder_notify, if_pos ⟨rfl, rfl⟩]
        exact mem_addPort_self _ _
      · rw [portsUnder_notify, if_pos ⟨rfl, rfl⟩]
        exact mem_addPort_self _ _
    · rw [hnot, portsUnder_notify, if_pos ⟨rfl, rfl⟩]
      exact mem_addPort_self _ _

/-- Witness for C3 on a concrete pair of records sharing one URL whose
fetch answers 404. -/
theorem c3_witness :
    (check_www_site (fun _ => true)
      (fun _ => some "HTTP Error 404: Not Found".data) true true {}
      [("p1".data, mkWwwPort "https://shared.example.org/".data
          "m1@x.org".data),
       ("p2".data, mkWwwPort "https://shared.example.org/".data
          "m2@x.org".data)]).trace = ["https://shared.example.org/".data]
    ∧ "p1".data ∈ portsUnder "m1@x.org".data
        (classify_url_error "HTTP Error 404: Not Found".data).reason
        (check_www_site (fun _ => true)
          (fun _ => some "HTTP Error 404: Not Found".data) true true {}
          [("p1".data, mkWwwPort "https://shared.example.org/".data
              "m1@x.org".data),
           ("p2".data, mkWwwPort "https://shared.example.org/".data
              "m2@x.org".data)]).ctx.notifications
    ∧ "p2".data ∈ portsUnder "m2@x.org".data
        (classify_url_error "HTTP Error 404: Not Found".data).reason
        (check_www_site (fun _ => true)
          (fun _ => some "HTTP Error 404: Not Found".data) true true {}
          [("p1".data, mkWwwPort "https://shared.example.org/".data
              "m1@x.org".data),
           ("p2".data, mkWwwPort "https://shared.example.org/".data
              "m2@x.org".data)]).ctx.notifications :=
  c3_url_memoization.2 (fun _ => true)
    (fun _ => some "HTTP Error 404: Not Found".data) {}
    "p1".data "p2".data "m1@x.org".data "m2@x.org".data
    "https://shared.example.org/".data
    "HTTP Error 404: Not Found".data
    (by decide) rfl rfl (by decide)
